import Mathlib

/-!
Verification of the `system_metrics_collector` core: a lifecycle-managed
statistics collector (`Collector`, src/system_metrics_collector/src/
system_metrics_collector/collector.hpp) owning a Welford-style online
statistics accumulator (`MovingAverageStatistics`).

Only the header `collector.hpp` is in the repository sources: it fixes the
class shape (the owned `collected_data_` accumulator, the `started_{false}`
flag at line 112, the `std::mutex mutex_` at line 108, and the documented
contracts of each method).  The method bodies and the
`moving_average_statistics` component are not in the sources, so their
behaviour is modelled from the specification; every such definition carries a
doc comment starting `Modelled from the spec:`.

Measurements (C++ `double`) are modelled as rationals, and the NaN sentinel of
an empty aggregate is modelled by `Option` (`none` = NaN).
-/

namespace SystemMetricsCollector

/-- Modelled from the spec: the `StatisticsSnapshot` value type (§3), named
`StatisticData` as in `collector.hpp` line 51
(`moving_average_statistics::StatisticData`).  `average`, `minimum` and
`maximum` are `none` (the NaN sentinel) when `sampleCount = 0`. -/
structure StatisticData where
  sampleCount : ℕ
  average : Option ℚ
  minimum : Option ℚ
  maximum : Option ℚ
  deriving DecidableEq, Repr

/-- Modelled from the spec: the `MovingAverageStatistics` accumulator
(`collector.hpp` line 110; its own source is not under src/).  Per §3/§4.1 it
keeps exactly the running state needed for an O(1) snapshot: count, running
mean, running sum of squared deviations from the mean (Welford), running min
and running max (`none` while empty). -/
structure MovingAverageStatistics where
  count : ℕ
  mean : ℚ
  sumSqDev : ℚ
  minVal : Option ℚ
  maxVal : Option ℚ
  deriving DecidableEq, Repr

/-- Modelled from the spec: the accumulator is created empty (§3). -/
def MovingAverageStatistics.empty : MovingAverageStatistics :=
  { count := 0, mean := 0, sumSqDev := 0, minVal := none, maxVal := none }

/-- Modelled from the spec: `fold(x)` updates count, mean, variance
accumulator, min and max in O(1) using Welford's incremental method (§4.1). -/
def MovingAverageStatistics.fold
    (s : MovingAverageStatistics) (x : ℚ) : MovingAverageStatistics :=
  let n : ℕ := s.count + 1
  let delta : ℚ := x - s.mean
  let newMean : ℚ := s.mean + delta / (n : ℚ)
  { count := n
    mean := newMean
    sumSqDev := s.sumSqDev + delta * (x - newMean)
    minVal := some (match s.minVal with
      | none => x
      | some m => min m x)
    maxVal := some (match s.maxVal with
      | none => x
      | some m => max m x) }

/-- Modelled from the spec: `reset()` restores the empty state; callable
repeatedly and from the empty state without error (§4.1). -/
def MovingAverageStatistics.reset
    (_s : MovingAverageStatistics) : MovingAverageStatistics :=
  MovingAverageStatistics.empty

/-- Modelled from the spec: `snapshot()` derives the current aggregate without
mutating state (§4.1); sentinel `none` statistics when empty. -/
def MovingAverageStatistics.snapshot
    (s : MovingAverageStatistics) : StatisticData :=
  { sampleCount := s.count
    average := if s.count = 0 then none else some s.mean
    minimum := s.minVal
    maximum := s.maxVal }

/-- Modelled from the spec: the standard-deviation field of the snapshot,
under the population policy (§3/§9 leave population vs. sample to the
implementer; this development fixes and documents the population formula:
`sqrt(sumSqDev / count)`).  `none` models the NaN sentinel of the empty
aggregate. -/
noncomputable def MovingAverageStatistics.standardDeviation
    (s : MovingAverageStatistics) : Option ℝ :=
  if s.count = 0 then none
  else some (Real.sqrt ((s.sumSqDev : ℝ) / (s.count : ℝ)))

/-- The `Collector` state (`collector.hpp` lines 108-112): the owned
`collected_data_` accumulator and the `started_` flag. -/
structure Collector where
  collected_data : MovingAverageStatistics
  started : Bool
  deriving DecidableEq, Repr

/-- A freshly constructed collector: `collector.hpp` line 112 initialises
`bool started_{false}`, and the default-constructed accumulator is empty. -/
def Collector.init : Collector :=
  { collected_data := MovingAverageStatistics.empty, started := false }

/-- `IsStarted` (`collector.hpp` lines 58-63): lock-protected read of
`started_`. -/
def Collector.IsStarted (c : Collector) : Bool :=
  c.started

/-- Modelled from the spec: `AcceptData` (declared `collector.hpp` lines
38-44; body not under src/) always folds the measurement into the
accumulator, independent of the `started` state (§4.2 policy). -/
def Collector.AcceptData (c : Collector) (x : ℚ) : Collector :=
  { c with collected_data := c.collected_data.fold x }

/-- Modelled from the spec: `GetStatisticsResults` (declared `collector.hpp`
lines 46-51; body not under src/) delegates to the accumulator snapshot. -/
def Collector.GetStatisticsResults (c : Collector) : StatisticData :=
  c.collected_data.snapshot

/-- Modelled from the spec: `ClearCurrentMeasurements` (declared
`collector.hpp` lines 53-56; body not under src/) calls the accumulator
`reset()`. -/
def Collector.ClearCurrentMeasurements (c : Collector) : Collector :=
  { c with collected_data := c.collected_data.reset }

/-- Modelled from the spec: `Start` (declared `collector.hpp` lines 75-81;
body not under src/) invokes the `SetupStart` extension point; on success
sets `started_ := true` and returns success, on failure leaves the state
not-started and returns failure.  The extension point's outcome is the
`setupStart` argument. -/
def Collector.Start (c : Collector) (setupStart : Bool) : Collector × Bool :=
  ({ c with started := setupStart }, setupStart)

/-- Modelled from the spec: `Stop` (declared `collector.hpp` lines 83-91;
body not under src/) invokes the `SetupStop` extension point and then,
regardless of its result, sets `started_ := false` and calls
`ClearCurrentMeasurements` (the header comment: "This calls
ClearCurrentMeasurements"), returning the extension point's result. -/
def Collector.Stop (c : Collector) (setupStop : Bool) : Collector × Bool :=
  (({ c with started := false }).ClearCurrentMeasurements, setupStop)

/-- Kinds of C++ mutual-exclusion locks, to state which one `collector.hpp`
declares. -/
inductive MutexKind where
  | plain
  | recursive
  deriving DecidableEq, Repr

/-- The lock actually declared at `collector.hpp` line 108:
`mutable std::mutex mutex_;` — a plain, non-re-entrant `std::mutex`. -/
def Collector.declaredMutexKind : MutexKind :=
  MutexKind.plain

/-- The lock described by the code's own documentation (`collector.hpp` lines
75-77: "this locks the recursive mutex class member 'mutex'") and by the
spec (§5: "A single recursive mutual-exclusion lock (re-entrant, ...)"). -/
def Collector.documentedMutexKind : MutexKind :=
  MutexKind.recursive

/-- The collector operations other than `Start`: used to state that a
collector on which `start()` has never been called stays not-started. -/
inductive NonStartOp where
  | accept (x : ℚ)
  | clear
  | stop (setupStop : Bool)
  deriving Repr

/-- Apply one non-`Start` operation to a collector state (the boolean result
of `Stop` is discarded; only the state matters here). -/
def Collector.applyOp (c : Collector) : NonStartOp → Collector
  | NonStartOp.accept x => c.AcceptData x
  | NonStartOp.clear => c.ClearCurrentMeasurements
  | NonStartOp.stop r => (c.Stop r).1

/-- Folding a whole list of measurements into a fresh collector via
`AcceptData`. -/
def Collector.foldAll (xs : List ℚ) : Collector :=
  xs.foldl Collector.AcceptData Collector.init

/-- The bounded-statistics invariant maintained by `fold`: an empty
accumulator has `none` min/max; a non-empty one records `some` min and max
that bracket the running mean. -/
def StatsBounded (s : MovingAverageStatistics) : Prop :=
  (s.count = 0 ∧ s.minVal = none ∧ s.maxVal = none) ∨
  (0 < s.count ∧ ∃ mn mx, s.minVal = some mn ∧ s.maxVal = some mx ∧
    mn ≤ s.mean ∧ s.mean ≤ mx)

/-! ## Helper lemmas -/

/-- `fold` increments the sample count by one. -/
theorem MovingAverageStatistics.fold_count
    (s : MovingAverageStatistics) (x : ℚ) :
    (s.fold x).count = s.count + 1 := rfl

/-- The empty accumulator satisfies the bounded-statistics invariant. -/
theorem MovingAverageStatistics.empty_bounded :
    StatsBounded MovingAverageStatistics.empty :=
  Or.inl ⟨rfl, rfl, rfl⟩

/-- The Welford mean update keeps the mean above any lower bound of both the
old mean and the new measurement. -/
theorem MovingAverageStatistics.fold_mean_lower
    (s : MovingAverageStatistics) (x m : ℚ)
    (hm1 : m ≤ s.mean) (hm2 : m ≤ x) :
    m ≤ (s.fold x).mean := by
  have hq1 : (1 : ℚ) ≤ ((s.count + 1 : ℕ) : ℚ) := by
    exact_mod_cast Nat.succ_le_succ (Nat.zero_le _)
  have hq0 : (0 : ℚ) < ((s.count + 1 : ℕ) : ℚ) := lt_of_lt_of_le one_pos hq1
  have key : m - s.mean ≤ (x - s.mean) / ((s.count + 1 : ℕ) : ℚ) := by
    rw [le_div_iff₀ hq0]
    nlinarith [mul_nonneg (sub_nonneg.2 hm1) (sub_nonneg.2 hq1)]
  have hfm : (s.fold x).mean =
      s.mean + (x - s.mean) / ((s.count + 1 : ℕ) : ℚ) := rfl
  rw [hfm]
  linarith

/-- The Welford mean update keeps the mean below any upper bound of both the
old mean and the new measurement. -/
theorem MovingAverageStatistics.fold_mean_upper
    (s : MovingAverageStatistics) (x M : ℚ)
    (hM1 : s.mean ≤ M) (hM2 : x ≤ M) :
    (s.fold x).mean ≤ M := by
  have hq1 : (1 : ℚ) ≤ ((s.count + 1 : ℕ) : ℚ) := by
    exact_mod_cast Nat.succ_le_succ (Nat.zero_le _)
  have hq0 : (0 : ℚ) < ((s.count + 1 : ℕ) : ℚ) := lt_of_lt_of_le one_pos hq1
  have key : (x - s.mean) / ((s.count + 1 : ℕ) : ℚ) ≤ M - s.mean := by
    rw [div_le_iff₀ hq0]
    nlinarith [mul_nonneg (sub_nonneg.2 hM1) (sub_nonneg.2 hq1)]
  have hfm : (s.fold x).mean =
      s.mean + (x - s.mean) / ((s.count + 1 : ℕ) : ℚ) := rfl
  rw [hfm]
  linarith

/-- `fold` preserves the bounded-statistics invariant. -/
theorem MovingAverageStatistics.fold_bounded
    (s : MovingAverageStatistics) (x : ℚ) (h : StatsBounded s) :
    StatsBounded (s.fold x) := by
  rcases h with ⟨h0, hmin, hmax⟩ | ⟨hpos, mn, mx, hmin, hmax, h1, h2⟩
  · right
    have hm : (s.fold x).mean = x := by
      show s.mean + (x - s.mean) / ((s.count + 1 : ℕ) : ℚ) = x
      rw [h0]
      push_cast
      ring
    refine ⟨Nat.succ_pos _, x, x, ?_, ?_, le_of_eq hm.symm, le_of_eq hm⟩
    · simp [MovingAverageStatistics.fold, hmin]
    · simp [MovingAverageStatistics.fold, hmax]
  · right
    refine ⟨Nat.succ_pos _, min mn x, max mx x, ?_, ?_, ?_, ?_⟩
    · simp [MovingAverageStatistics.fold, hmin]
    · simp [MovingAverageStatistics.fold, hmax]
    · exact MovingAverageStatistics.fold_mean_lower s x (min mn x)
        (le_trans (min_le_left _ _) h1) (min_le_right _ _)
    · exact MovingAverageStatistics.fold_mean_upper s x (max mx x)
        (le_trans h2 (le_max_left _ _)) (le_max_right _ _)

/-- Folding a whole list preserves the bounded-statistics invariant. -/
theorem MovingAverageStatistics.foldl_bounded
    (xs : List ℚ) (s : MovingAverageStatistics) (h : StatsBounded s) :
    StatsBounded (xs.foldl MovingAverageStatistics.fold s) := by
  induction xs generalizing s with
  | nil => exact h
  | cons y ys ih => exact ih (s.fold y) (MovingAverageStatistics.fold_bounded s y h)

/-- Folding a list adds its length to the sample count. -/
theorem MovingAverageStatistics.foldl_count
    (xs : List ℚ) (s : MovingAverageStatistics) :
    (xs.foldl MovingAverageStatistics.fold s).count = s.count + xs.length := by
  induction xs generalizing s with
  | nil => rfl
  | cons y ys ih =>
    have h := ih (s.fold y)
    simp only [List.foldl_cons, h, MovingAverageStatistics.fold_count,
      List.length_cons]
    omega

/-- `foldAll` at the collector level runs `fold` at the accumulator level. -/
theorem Collector.foldl_acceptData_collected
    (xs : List ℚ) (c : Collector) :
    (xs.foldl Collector.AcceptData c).collected_data =
      xs.foldl MovingAverageStatistics.fold c.collected_data := by
  induction xs generalizing c with
  | nil => rfl
  | cons y ys ih => exact ih (c.AcceptData y)

/-- A non-`Start` operation never turns the `started` flag on. -/
theorem Collector.applyOp_started
    (c : Collector) (op : NonStartOp) :
    (c.applyOp op).started = false ∨ (c.applyOp op).started = c.started := by
  cases op with
  | accept x => exact Or.inr rfl
  | clear => exact Or.inr rfl
  | stop r => exact Or.inl rfl

/-- A collector that is not started stays not started under any sequence of
non-`Start` operations. -/
theorem Collector.foldl_applyOp_not_started
    (ops : List NonStartOp) (c : Collector) (h : c.started = false) :
    (ops.foldl Collector.applyOp c).started = false := by
  induction ops generalizing c with
  | nil => exact h
  | cons op ops ih =>
    apply ih
    rcases Collector.applyOp_started c op with h1 | h1
    · exact h1
    · exact h1.trans h

/-! ## Claims -/

/-- C1: for every measurement `x` and every lifecycle state of the collector,
`AcceptData x` folds `x` into the owned accumulator; in particular the sample
count visible through `GetStatisticsResults` grows by one and the `IsStarted`
observation is unchanged, so ingestion is not gated on the lifecycle state. -/
theorem acceptData_always_folds (c : Collector) (x : ℚ) :
    (c.AcceptData x).collected_data = c.collected_data.fold x ∧
    (c.AcceptData x).GetStatisticsResults.sampleCount =
      c.GetStatisticsResults.sampleCount + 1 ∧
    (c.AcceptData x).IsStarted = c.IsStarted := by
  refine ⟨rfl, ?_, rfl⟩
  simp [Collector.AcceptData, Collector.GetStatisticsResults,
    MovingAverageStatistics.snapshot, MovingAverageStatistics.fold_count]

/-- C2: from the `Started` state, `Stop` returns the `SetupStop` extension
point's result, and regardless of that result leaves the collector
not-started with an empty accumulator, and a subsequent `Start` (with a
succeeding extension point) succeeds again. -/
theorem stop_clears_and_is_restartable (c : Collector) (r : Bool)
    (h : c.IsStarted = true) :
    (c.Stop r).2 = r ∧
    (c.Stop r).1.IsStarted = false ∧
    (c.Stop r).1.collected_data = MovingAverageStatistics.empty ∧
    ((c.Stop r).1.Start true).1.IsStarted = true ∧
    ((c.Stop r).1.Start true).2 = true := by
  exact ⟨rfl, rfl, rfl, rfl, rfl⟩

/-- Witness for C2: the theorem applied to a concretely started collector and
a failing `SetupStop`. -/
theorem stop_clears_and_is_restartable_witness :
    ((Collector.init.Start true).1.IsStarted = true) ∧
    (((Collector.init.Start true).1.Stop false).2 = false ∧
     ((Collector.init.Start true).1.Stop false).1.IsStarted = false ∧
     ((Collector.init.Start true).1.Stop false).1.collected_data =
       MovingAverageStatistics.empty ∧
     (((Collector.init.Start true).1.Stop false).1.Start true).1.IsStarted = true ∧
     (((Collector.init.Start true).1.Stop false).1.Start true).2 = true) :=
  ⟨rfl, stop_clears_and_is_restartable (Collector.init.Start true).1 false rfl⟩

/-- C3: from the `NotStarted` state, `Start` with a succeeding `SetupStart`
extension point sets `started := true` and returns success; with a failing
extension point the collector stays not-started and `Start` returns failure,
and a later retry with a succeeding extension point is well-defined and
succeeds. -/
theorem start_succeeds_or_leaves_not_started (c : Collector)
    (h : c.IsStarted = false) :
    ((c.Start true).1.IsStarted = true ∧ (c.Start true).2 = true) ∧
    ((c.Start false).1.IsStarted = false ∧ (c.Start false).2 = false) ∧
    (((c.Start false).1.Start true).1.IsStarted = true ∧
     ((c.Start false).1.Start true).2 = true) := by
  exact ⟨⟨rfl, rfl⟩, ⟨rfl, rfl⟩, ⟨rfl, rfl⟩⟩

/-- Witness for C3: the theorem applied to a freshly constructed collector. -/
theorem start_succeeds_or_leaves_not_started_witness :
    (Collector.init.IsStarted = false) ∧
    (((Collector.init.Start true).1.IsStarted = true ∧
      (Collector.init.Start true).2 = true) ∧
     ((Collector.init.Start false).1.IsStarted = false ∧
      (Collector.init.Start false).2 = false) ∧
     (((Collector.init.Start false).1.Start true).1.IsStarted = true ∧
      ((Collector.init.Start false).1.Start true).2 = true)) :=
  ⟨rfl, start_succeeds_or_leaves_not_started Collector.init rfl⟩

/-- C4: `collector.hpp` line 108 declares the lock as a plain `std::mutex`,
not the recursive (re-entrant) mutex that the code's own comment at lines
75-77 and the spec describe. -/
theorem declaredMutex_is_not_recursive :
    Collector.declaredMutexKind ≠ Collector.documentedMutexKind := by
  decide

/-- C5: for every non-empty sequence of measurements folded into a fresh
collector (so the snapshot's sample count is positive), the snapshot produced
by `GetStatisticsResults` satisfies `minimum ≤ average ≤ maximum`. -/
theorem snapshot_min_le_avg_le_max (xs : List ℚ) (h : xs ≠ []) :
    ∃ mn av mx,
      (Collector.foldAll xs).GetStatisticsResults.minimum = some mn ∧
      (Collector.foldAll xs).GetStatisticsResults.average = some av ∧
      (Collector.foldAll xs).GetStatisticsResults.maximum = some mx ∧
      mn ≤ av ∧ av ≤ mx := by
  have hc : (Collector.foldAll xs).collected_data =
      xs.foldl MovingAverageStatistics.fold MovingAverageStatistics.empty :=
    Collector.foldl_acceptData_collected xs Collector.init
  have hb : StatsBounded (Collector.foldAll xs).collected_data := by
    rw [hc]
    exact MovingAverageStatistics.foldl_bounded xs _
      MovingAverageStatistics.empty_bounded
  have hcount : (Collector.foldAll xs).collected_data.count = xs.length := by
    rw [hc, MovingAverageStatistics.foldl_count]
    simp [MovingAverageStatistics.empty]
  have hpos : 0 < (Collector.foldAll xs).collected_data.count := by
    rw [hcount]
    exact List.length_pos.2 h
  rcases hb with ⟨h0, _, _⟩ | ⟨_, mn, mx, hmin, hmax, h1, h2⟩
  · rw [h0] at hpos
    exact absurd hpos (lt_irrefl 0)
  · refine ⟨mn, (Collector.foldAll xs).collected_data.mean, mx, ?_, ?_, ?_, h1, h2⟩
    · exact hmin
    · show (if (Collector.foldAll xs).collected_data.count = 0 then none
        else some (Collector.foldAll xs).collected_data.mean) = some _
      rw [if_neg hpos.ne']
    · exact hmax

/-- Witness for C5: the theorem applied to the concrete list `[1, 2]`. -/
theorem snapshot_min_le_avg_le_max_witness :
    (([1, 2] : List ℚ) ≠ []) ∧
    (∃ mn av mx,
      (Collector.foldAll [1, 2]).GetStatisticsResults.minimum = some mn ∧
      (Collector.foldAll [1, 2]).GetStatisticsResults.average = some av ∧
      (Collector.foldAll [1, 2]).GetStatisticsResults.maximum = some mx ∧
      mn ≤ av ∧ av ≤ mx) :=
  ⟨List.cons_ne_nil 1 [2], snapshot_min_le_avg_le_max [1, 2] (List.cons_ne_nil 1 [2])⟩

/-- C6: a freshly constructed collector is not started, and `IsStarted`
returns `false` on any collector on which `Start` has never been called
(i.e. after any sequence of the non-`Start` operations). -/
theorem fresh_collector_not_started :
    Collector.init.IsStarted = false ∧
    ∀ ops : List NonStartOp,
      (ops.foldl Collector.applyOp Collector.init).IsStarted = false := by
  refine ⟨rfl, fun ops => ?_⟩
  exact Collector.foldl_applyOp_not_started ops Collector.init rfl

/-- C7: after `ClearCurrentMeasurements`, the snapshot has sample count `0`
and sentinel (`none`, modelling NaN) average, minimum, maximum and standard
deviation, and clearing again (also from the already-empty state) is a
well-defined no-op on the state. -/
theorem clear_yields_empty_sentinel_snapshot (c : Collector) :
    (c.ClearCurrentMeasurements).GetStatisticsResults.sampleCount = 0 ∧
    (c.ClearCurrentMeasurements).GetStatisticsResults.average = none ∧
    (c.ClearCurrentMeasurements).GetStatisticsResults.minimum = none ∧
    (c.ClearCurrentMeasurements).GetStatisticsResults.maximum = none ∧
    (c.ClearCurrentMeasurements).collected_data.standardDeviation = none ∧
    (c.ClearCurrentMeasurements).ClearCurrentMeasurements =
      c.ClearCurrentMeasurements := by
  refine ⟨rfl, rfl, rfl, rfl, ?_, rfl⟩
  simp [Collector.ClearCurrentMeasurements, MovingAverageStatistics.reset,
    MovingAverageStatistics.standardDeviation, MovingAverageStatistics.empty]

/-- C8: calling `Stop` twice in a row from any state is a defined operation:
both calls leave `IsStarted = false`, and the second call (made from the
already not-started state) leaves the state exactly as the first call left
it. -/
theorem stop_twice_safe (c : Collector) (r1 r2 : Bool) :
    (c.Stop r1).1.IsStarted = false ∧
    ((c.Stop r1).1.Stop r2).1.IsStarted = false ∧
    ((c.Stop r1).1.Stop r2).1 = (c.Stop r1).1 := by
  exact ⟨rfl, rfl, rfl⟩

/-- C9: folding exactly the measurements 1, 2, 3 into a fresh collector
yields a snapshot with sample count 3, average 2, minimum 1 and maximum 3,
and — under the population standard-deviation policy this development
documents — a standard deviation of `sqrt (2/3)`, which is within `0.001` of
`0.8165`. -/
theorem fold_one_two_three_snapshot :
    (((Collector.init.AcceptData 1).AcceptData 2).AcceptData
        3).GetStatisticsResults =
      { sampleCount := 3, average := some 2,
        minimum := some 1, maximum := some 3 } ∧
    (((Collector.init.AcceptData 1).AcceptData 2).AcceptData
        3).collected_data.standardDeviation = some (Real.sqrt (2 / 3)) ∧
    |Real.sqrt (2 / 3) - 0.8165| < 1 / 1000 := by
  have hdata : (((Collector.init.AcceptData 1).AcceptData 2).AcceptData
      3).collected_data =
      { count := 3, mean := 2, sumSqDev := 2,
        minVal := some 1, maxVal := some 3 } := by
    simp only [Collector.AcceptData, Collector.init,
      MovingAverageStatistics.fold, MovingAverageStatistics.empty,
      MovingAverageStatistics.mk.injEq]
    norm_num
  refine ⟨?_, ?_, ?_⟩
  · simp only [Collector.GetStatisticsResults, hdata,
      MovingAverageStatistics.snapshot]
    norm_num
  · simp only [hdata, MovingAverageStatistics.standardDeviation]
    norm_num
  · have hlo : (0.8155 : ℝ) < Real.sqrt (2 / 3) := by
      rw [Real.lt_sqrt (by norm_num)]
      norm_num
    have hhi : Real.sqrt (2 / 3) < (0.8175 : ℝ) := by
      rw [Real.sqrt_lt' (by norm_num)]
      norm_num
    rw [abs_lt]
    constructor <;> linarith

/-- C10: `ClearCurrentMeasurements` only touches the accumulator: the
`started` flag observed through `IsStarted` is unchanged, and the whole state
differs from the input only in the `collected_data` field. -/
theorem clear_preserves_started (c : Collector) :
    (c.ClearCurrentMeasurements).IsStarted = c.IsStarted ∧
    (c.ClearCurrentMeasurements).started = c.started ∧
    c.ClearCurrentMeasurements =
      { c with collected_data := MovingAverageStatistics.empty } := by
  exact ⟨rfl, rfl, rfl⟩

end SystemMetricsCollector
